import Mathlib

/-!
Verification of the StarTrader backtest simulation core
(`src/server/routes.ts`: the `POST /api/backtests/run` handler and
`generateSimulatedBars`) against its natural-language specification.

Modelling conventions:
* JavaScript numbers are modelled as exact rationals (`ℚ`); `Math.floor`
  is `Int.floor`; `x.toFixed(5)` (a decimal-string formatting) is modelled
  by the rational value the formatted string denotes, i.e. rounding to a
  multiple of `1/100000` (`fix5`).
* `Math.random()` is modelled by an injected entropy stream `e : ℕ → ℚ`,
  consumed in the exact order the source calls `Math.random()`; the
  predicate `UnitEntropy e` states every draw lies in `[0, 1)`.
* Millisecond timestamps (`Date.getTime()`) are `Int`; ISO date strings
  are kept as `String` and parsing (`new Date(s).getTime()`) is an
  injected function `parseMs : String → Int`.
* The store (`storage.getStrategy`) is an injected lookup
  `String → Option Strategy`; the two side effects of the success path
  (writing `latest_bars.csv` and `storage.createBacktestResult`) are
  recorded as an explicit effect trace in source order, so "state
  unchanged on error" is visible as an empty trace.
-/

namespace StarTrader

/-- `Math.random()` draws lie in `[0, 1)`. -/
def UnitEntropy (e : ℕ → ℚ) : Prop := ∀ n, 0 ≤ e n ∧ e n < 1

/-- Model of `x.toFixed(5)`: the rational value denoted by the decimal
string with 5 fractional digits, i.e. `x` rounded to the nearest multiple
of `1/100000`. -/
def fix5 (x : ℚ) : ℚ := (round (x * 100000) : ℤ) / 100000

/-- One OHLC bar, as built by `generateSimulatedBars` in
`src/server/routes.ts` lines 253-262.  The source stores the four price
fields as `toFixed(5)` strings; we model them by the rational values those
strings denote. -/
structure Bar where
  time : Int
  open_ : ℚ
  high : ℚ
  low : ℚ
  close : ℚ
  tick_volume : Int
  spread : Int
  real_volume : Int
deriving Repr, DecidableEq, Inhabited

/-- `const interval = 5 * 60 * 1000` (routes.ts line 241). -/
def barIntervalMs : Int := 5 * 60 * 1000

/-- `symbol.includes("JPY")` on the character list of the symbol. -/
def containsJPYChars : List Char → Bool
  | 'J' :: 'P' :: 'Y' :: _ => true
  | _ :: rest => containsJPYChars rest
  | [] => false

/-- `symbol.includes("JPY")` (routes.ts lines 243-244). -/
def containsJPY (s : String) : Bool := containsJPYChars s.toList

/-- The `for (let time = start; time < end; time += interval)` loop of
`generateSimulatedBars` (routes.ts lines 246-265).  `k` is the position in
the entropy stream; each iteration consumes 5 draws in source order:
`change`, the `high` jitter, the `low` jitter, `tick_volume`, `spread`. -/
def generateBarsLoop (e : ℕ → ℚ) (endMs : Int) (volatility : ℚ)
    (time : Int) (price : ℚ) (k : ℕ) : List Bar :=
  if time < endMs then
    let change := (e k - 1/2) * 2 * volatility
    let o := price
    let c := price + change
    let hi := max o c + e (k+1) * volatility
    let lo := min o c - e (k+2) * volatility
    { time := time, open_ := fix5 o, high := fix5 hi, low := fix5 lo,
      close := fix5 c, tick_volume := ⌊e (k+3) * 1000⌋ + 100,
      spread := ⌊e (k+4) * 20⌋ + 5, real_volume := 0 }
      :: generateBarsLoop e endMs volatility (time + barIntervalMs) c (k+5)
  else []
termination_by (endMs - time).toNat
decreasing_by
  simp_wf
  simp only [barIntervalMs]
  omega

/-- `generateSimulatedBars(startDate, endDate, symbol)` (routes.ts lines
237-268), over already-parsed millisecond timestamps.  JPY-quoted symbols
seed price 150.0 with volatility 0.5; all others seed 1.1000 with
volatility 0.0005. -/
def generateSimulatedBars (e : ℕ → ℚ) (startMs endMs : Int) (symbol : String) :
    List Bar :=
  let price : ℚ := if containsJPY symbol then 150 else 11/10
  let volatility : ℚ := if containsJPY symbol then 1/2 else 5/10000
  generateBarsLoop e endMs volatility startMs price 0

/-- One simulated trade, as pushed by the backtest loop (routes.ts lines
173-183).  `openTime`/`closeTime` are the millisecond values of the ISO
strings the source stores. -/
structure BacktestTrade where
  id : String
  symbol : String
  type : String
  openPrice : ℚ
  closePrice : ℚ
  volume : ℚ
  profit : ℚ
  openTime : Int
  closeTime : Int
deriving Repr, DecidableEq, Inhabited

/-- The profit of trade `i` (routes.ts lines 167-170): a win iff
`i < winningTrades`; wins draw `Math.random()*200+50`, losses
`-(Math.random()*150+30)`.  The profit draw is the first of the five
entropy draws of iteration `i`, at stream position `2 + 5*i`. -/
def tradeProfit (e : ℕ → ℚ) (winningTrades i : ℕ) : ℚ :=
  if i < winningTrades then e (2 + 5*i) * 200 + 50 else -(e (2 + 5*i) * 150 + 30)

/-- Trade `i` as built by the loop body (routes.ts lines 166-183).  The
five `Math.random()` calls of iteration `i` occupy stream positions
`2 + 5*i .. 6 + 5*i` in source order: profit, type, openPrice, closePrice,
volume. -/
def mkTrade (e : ℕ → ℚ) (symbol : String) (startMs : Int)
    (winningTrades i : ℕ) : BacktestTrade :=
  let b := 2 + 5*i
  { id := "trade-" ++ toString i
    symbol := symbol
    type := if e (b+1) > 1/2 then "BUY" else "SELL"
    openPrice := 1 + e (b+2) * (1/10)
    closePrice := 1 + e (b+3) * (1/10)
    volume := 1/10 + e (b+4) * (4/10)
    profit := tradeProfit e winningTrades i
    openTime := startMs + (i : Int) * 3600000 * 4
    closeTime := startMs + ((i : Int) + 1) * 3600000 * 4 }

/-- The equity-curve sampling of the loop (routes.ts lines 171, 185-187):
for each trade profit in order, update the running `equity`; when the
0-based index `i` satisfies `i % 3 == 0`, append the updated equity. -/
def equitySamples : List ℚ → ℚ → ℕ → List ℚ
  | [], _, _ => []
  | p :: ps, equity, i =>
    let eq2 := equity + p
    if i % 3 = 0 then eq2 :: equitySamples ps eq2 (i+1)
    else equitySamples ps eq2 (i+1)

/-- The body of `POST /api/backtests/run` parsed by `runBacktestSchema`
(`src/shared/schema.ts` lines 101-108). -/
structure RunRequest where
  strategyId : String
  symbol : String
  timeframe : String
  startDate : String
  endDate : String
  initialBalance : ℚ
deriving Repr, DecidableEq, Inhabited

/-- The slice of a stored strategy the handler uses (`strategy.name`). -/
structure Strategy where
  name : String
deriving Repr, DecidableEq, Inhabited

/-- The two failure responses of the handler: 400 for a request rejected
by `runBacktestSchema.safeParse` (routes.ts lines 145-148), 404 for an
absent strategy (lines 152-155). -/
inductive RunError where
  | validationError
  | strategyNotFound
deriving Repr, DecidableEq

/-- The externally visible side effects of the success path, in source
order: the `latest_bars.csv` write (routes.ts lines 199-207) and
`storage.createBacktestResult` (lines 210-229). -/
inductive Effect where
  | writeBarsFile
  | persistResult
deriving Repr, DecidableEq

/-- `runBacktestSchema` (`src/shared/schema.ts` lines 101-108): the five
string fields non-empty and `initialBalance ≥ 100`. -/
def validRequest (req : RunRequest) : Bool :=
  decide (1 ≤ req.strategyId.length) && decide (1 ≤ req.symbol.length) &&
  decide (1 ≤ req.timeframe.length) && decide (1 ≤ req.startDate.length) &&
  decide (1 ≤ req.endDate.length) && decide ((100 : ℚ) ≤ req.initialBalance)

/-- The `BacktestResult` record the handler hands to
`storage.createBacktestResult` (routes.ts lines 210-229).  The store-assigned
`id` and `createdAt` are omitted.  `totalTrades`, `winningTrades` and
`losingTrades` are kept as `ℕ`; for entropy draws in `[0, 1)` this agrees
with the source's number arithmetic (the counts are then nonnegative with
`winningTrades ≤ totalTrades`). -/
structure BacktestResultRec where
  strategyId : String
  strategyName : String
  symbol : String
  timeframe : String
  startDate : String
  endDate : String
  initialBalance : ℚ
  finalBalance : ℚ
  totalTrades : ℕ
  winningTrades : ℕ
  losingTrades : ℕ
  winRate : ℚ
  totalProfit : ℚ
  maxDrawdown : ℚ
  sharpeRatio : ℚ
  profitFactor : ℚ
  equityCurve : List ℚ
  trades : List BacktestTrade
deriving Repr, DecidableEq, Inhabited

/-- The success path of the handler (routes.ts lines 157-229), after the
strategy lookup succeeded.  Entropy-stream layout, in source call order:
position 0 `totalTrades`, position 1 `winRate`, positions
`2+5*i .. 6+5*i` trade `i`, position `2+5*T` `maxDrawdown`, positions
`3+5*T ...` the draws of `generateSimulatedBars`, and `sharpeRatio` right
after the bars (it is drawn while building the argument of
`createBacktestResult`, after the bars were generated). -/
def runBacktestCore (parseMs : String → Int) (e : ℕ → ℚ)
    (req : RunRequest) (strategy : Strategy) : BacktestResultRec :=
  let totalTrades : ℕ := (⌊e 0 * 50⌋).toNat + 20
  let winRate : ℚ := 45 + e 1 * 25
  let winningTrades : ℕ := (⌊winRate / 100 * (totalTrades : ℚ)⌋).toNat
  let losingTrades : ℕ := totalTrades - winningTrades
  let startMs := parseMs req.startDate
  let trades := (List.range totalTrades).map (mkTrade e req.symbol startMs winningTrades)
  let profits := trades.map (fun t => t.profit)
  let equity := profits.foldl (fun a b => a + b) req.initialBalance
  let equityCurve := req.initialBalance :: equitySamples profits req.initialBalance 0
  let totalProfit := profits.foldl (fun a b => a + b) 0
  let afterTrades := 2 + 5 * totalTrades
  let maxDrawdown := e afterTrades * 15 + 5
  let winSum := (trades.filter (fun t => decide (0 < t.profit))).foldl (fun s t => s + t.profit) 0
  let lossSum := (trades.filter (fun t => decide (t.profit < 0))).foldl (fun s t => s + t.profit) 0
  let profitFactor := abs (winSum / max 1 (abs lossSum))
  let barsData := generateSimulatedBars (fun n => e (afterTrades + 1 + n))
    startMs (parseMs req.endDate) req.symbol
  let sharpeRatio := 1/2 + e (afterTrades + 1 + 5 * barsData.length) * (3/2)
  { strategyId := req.strategyId
    strategyName := strategy.name
    symbol := req.symbol
    timeframe := req.timeframe
    startDate := req.startDate
    endDate := req.endDate
    initialBalance := req.initialBalance
    finalBalance := equity
    totalTrades := totalTrades
    winningTrades := winningTrades
    losingTrades := losingTrades
    winRate := winRate
    totalProfit := totalProfit
    maxDrawdown := maxDrawdown
    sharpeRatio := sharpeRatio
    profitFactor := profitFactor
    equityCurve := equityCurve
    trades := trades }

/-- The whole `POST /api/backtests/run` handler (routes.ts lines 143-235):
schema validation, then strategy lookup, then the simulation; paired with
the effect trace (empty on both error paths — nothing is written or
persisted before the lookup succeeds). -/
def runBacktest (lookup : String → Option Strategy) (parseMs : String → Int)
    (e : ℕ → ℚ) (req : RunRequest) :
    Except RunError BacktestResultRec × List Effect :=
  if validRequest req then
    match lookup req.strategyId with
    | none => (Except.error RunError.strategyNotFound, [])
    | some strategy =>
        (Except.ok (runBacktestCore parseMs e req strategy),
         [Effect.writeBarsFile, Effect.persistResult])
  else (Except.error RunError.validationError, [])

/-! ### Shared lemmas: field views of `runBacktestCore`, handler case analysis -/

theorem core_totalTrades (parseMs : String → Int) (e : ℕ → ℚ)
    (req : RunRequest) (strategy : Strategy) :
    (runBacktestCore parseMs e req strategy).totalTrades = (⌊e 0 * 50⌋).toNat + 20 := rfl

theorem core_winRate (parseMs : String → Int) (e : ℕ → ℚ)
    (req : RunRequest) (strategy : Strategy) :
    (runBacktestCore parseMs e req strategy).winRate = 45 + e 1 * 25 := rfl

theorem core_winningTrades (parseMs : String → Int) (e : ℕ → ℚ)
    (req : RunRequest) (strategy : Strategy) :
    (runBacktestCore parseMs e req strategy).winningTrades =
      (⌊(runBacktestCore parseMs e req strategy).winRate / 100 *
        ((runBacktestCore parseMs e req strategy).totalTrades : ℚ)⌋).toNat := rfl

theorem core_losingTrades (parseMs : String → Int) (e : ℕ → ℚ)
    (req : RunRequest) (strategy : Strategy) :
    (runBacktestCore parseMs e req strategy).losingTrades =
      (runBacktestCore parseMs e req strategy).totalTrades -
        (runBacktestCore parseMs e req strategy).winningTrades := rfl

theorem core_initialBalance (parseMs : String → Int) (e : ℕ → ℚ)
    (req : RunRequest) (strategy : Strategy) :
    (runBacktestCore parseMs e req strategy).initialBalance = req.initialBalance := rfl

theorem core_trades (parseMs : String → Int) (e : ℕ → ℚ)
    (req : RunRequest) (strategy : Strategy) :
    (runBacktestCore parseMs e req strategy).trades =
      (List.range (runBacktestCore parseMs e req strategy).totalTrades).map
        (mkTrade e req.symbol (parseMs req.startDate)
          (runBacktestCore parseMs e req strategy).winningTrades) := rfl

theorem core_finalBalance (parseMs : String → Int) (e : ℕ → ℚ)
    (req : RunRequest) (strategy : Strategy) :
    (runBacktestCore parseMs e req strategy).finalBalance =
      ((runBacktestCore parseMs e req strategy).trades.map (fun t => t.profit)).foldl
        (fun a b => a + b) req.initialBalance := rfl

theorem core_totalProfit (parseMs : String → Int) (e : ℕ → ℚ)
    (req : RunRequest) (strategy : Strategy) :
    (runBacktestCore parseMs e req strategy).totalProfit =
      ((runBacktestCore parseMs e req strategy).trades.map (fun t => t.profit)).foldl
        (fun a b => a + b) 0 := rfl

theorem core_equityCurve (parseMs : String → Int) (e : ℕ → ℚ)
    (req : RunRequest) (strategy : Strategy) :
    (runBacktestCore parseMs e req strategy).equityCurve =
      req.initialBalance ::
        equitySamples
          ((runBacktestCore parseMs e req strategy).trades.map (fun t => t.profit))
          req.initialBalance 0 := rfl

/-- A valid request whose strategy the store knows runs the simulation and
performs, in order, the bar-file write and the result persistence. -/
theorem runBacktest_success (lookup : String → Option Strategy)
    (parseMs : String → Int) (e : ℕ → ℚ) (req : RunRequest) (strategy : Strategy)
    (hv : validRequest req = true) (hl : lookup req.strategyId = some strategy) :
    runBacktest lookup parseMs e req =
      (Except.ok (runBacktestCore parseMs e req strategy),
       [Effect.writeBarsFile, Effect.persistResult]) := by
  simp [runBacktest, hv, hl]

theorem runBacktest_notFound (lookup : String → Option Strategy)
    (parseMs : String → Int) (e : ℕ → ℚ) (req : RunRequest)
    (hv : validRequest req = true) (hl : lookup req.strategyId = none) :
    runBacktest lookup parseMs e req = (Except.error RunError.strategyNotFound, []) := by
  simp [runBacktest, hv, hl]

theorem runBacktest_invalid (lookup : String → Option Strategy)
    (parseMs : String → Int) (e : ℕ → ℚ) (req : RunRequest)
    (hv : validRequest req = false) :
    runBacktest lookup parseMs e req = (Except.error RunError.validationError, []) := by
  simp [runBacktest, hv]

/-! ### Concrete fixtures used by witnesses and counterexamples -/

/-- The all-zero entropy stream (every `Math.random()` returns 0). -/
def zeroEntropy : ℕ → ℚ := fun _ => 0

/-- A date parser sending every string to timestamp 0. -/
def zeroParse : String → Int := fun _ => 0

def wStrategy : Strategy := { name := "SMA Crossover" }

/-- A store that knows every strategy id. -/
def wLookup : String → Option Strategy := fun _ => some wStrategy

/-- An empty store. -/
def noLookup : String → Option Strategy := fun _ => none

def wReq : RunRequest :=
  { strategyId := "s1", symbol := "EURUSD", timeframe := "H1",
    startDate := "2024-01-01", endDate := "2024-02-01", initialBalance := 10000 }

theorem unitEntropy_zero : UnitEntropy zeroEntropy := by
  intro n
  norm_num [zeroEntropy]

theorem validRequest_wReq : validRequest wReq = true := by decide

def wSymbol : String := "EURUSD"

/-! ### C2 -/

/-- C2 counterexample: with `startMs = 0`, `endMs = 1` the date span is
positive and smaller than one interval (5 minutes), yet the synthesizer
returns one bar, not the empty sequence the claim demands. -/
theorem C2_counterexample :
    (0 : Int) < 1 ∧ (1 : Int) - 0 < barIntervalMs ∧
    (generateSimulatedBars zeroEntropy 0 1 wSymbol).length = 1 ∧ (1 : ℕ) ≠ 0 := by
  refine ⟨by decide, by decide, ?_, by decide⟩
  unfold generateSimulatedBars generateBarsLoop
  rw [if_pos (by decide : (0 : Int) < 1)]
  unfold generateBarsLoop
  have hc : ¬ ((0 : Int) + barIntervalMs < 1) := by decide
  simp only [if_neg hc, List.length_cons, List.length_nil]

/-- C2 (amended): a call whose positive date span is at most one interval
returns exactly one bar (the `for` loop of `generateSimulatedBars` runs
once whenever `start < end`); the empty sequence needs a non-positive
span.  No error is raised (the function is total). -/
theorem C2_small_positive_span_one_bar (e : ℕ → ℚ) (s t : Int) (sym : String)
    (h1 : s < t) (h2 : t - s ≤ barIntervalMs) :
    (generateSimulatedBars e s t sym).length = 1 := by
  unfold generateSimulatedBars generateBarsLoop
  rw [if_pos h1]
  unfold generateBarsLoop
  have hc : ¬ (s + barIntervalMs < t) := by
    simp only [barIntervalMs] at h2 ⊢
    omega
  simp only [if_neg hc, List.length_cons, List.length_nil]

theorem C2_witness :
    (0 : Int) < 1 ∧ (1 : Int) - 0 ≤ barIntervalMs ∧
    (generateSimulatedBars zeroEntropy 0 1 wSymbol).length = 1 :=
  ⟨by decide, by decide,
    C2_small_positive_span_one_bar zeroEntropy 0 1 wSymbol (by decide) (by decide)⟩

/-! ### C3 -/

/-- C3 counterexample: at `startMs = endMs = 0` the synthesizer does not
fail (no `InvalidRangeError` exists in the source): it returns a bar
sequence (the empty one) although `startDate < endDate` does not hold. -/
theorem C3_counterexample :
    generateSimulatedBars zeroEntropy 0 0 wSymbol = [] ∧ ¬ (0 : Int) < 0 := by
  constructor
  · unfold generateSimulatedBars generateBarsLoop
    have hc : ¬ ((0 : Int) < 0) := by decide
    simp only [if_neg hc]
  · decide

/-- C3 (amended): the synthesizer is total — it never raises any error.
For `startDate ≥ endDate` it returns the empty bar sequence, and for
`startDate < endDate` a non-empty one. -/
theorem C3_synthesizer_never_fails (e : ℕ → ℚ) (s t : Int) (sym : String) :
    (t ≤ s → generateSimulatedBars e s t sym = []) ∧
    (s < t → generateSimulatedBars e s t sym ≠ []) := by
  constructor
  · intro h
    unfold generateSimulatedBars generateBarsLoop
    simp only [if_neg (not_lt.mpr h)]
  · intro h
    unfold generateSimulatedBars generateBarsLoop
    simp only [if_pos h]
    exact List.cons_ne_nil _ _

theorem C3_witness :
    generateSimulatedBars zeroEntropy 1 0 wSymbol = [] ∧
    generateSimulatedBars zeroEntropy 0 1 wSymbol ≠ [] :=
  ⟨(C3_synthesizer_never_fails zeroEntropy 1 0 wSymbol).1 (by decide),
   (C3_synthesizer_never_fails zeroEntropy 0 1 wSymbol).2 (by decide)⟩

/-! ### C5 -/

theorem foldl_add_eq (l : List ℚ) :
    ∀ b : ℚ, l.foldl (fun a c => a + c) b = b + l.foldl (fun a c => a + c) 0 := by
  induction l with
  | nil => intro b; simp
  | cons x xs ih =>
    intro b
    simp only [List.foldl_cons]
    rw [ih (b + x), ih (0 + x)]
    ring

/-- C5 (confirmed): for every successful `runBacktest`, the `finalBalance`
(the running `equity` after all trades) equals `initialBalance` plus
`totalProfit` (the reduce-sum of the trades' profits) — exactly, in the
rational model, hence within the claimed `1e-6` tolerance. -/
theorem C5_finalBalance_eq_initial_plus_totalProfit
    (lookup : String → Option Strategy) (parseMs : String → Int) (e : ℕ → ℚ)
    (req : RunRequest) (strategy : Strategy)
    (hv : validRequest req = true) (hl : lookup req.strategyId = some strategy) :
    runBacktest lookup parseMs e req =
      (Except.ok (runBacktestCore parseMs e req strategy),
       [Effect.writeBarsFile, Effect.persistResult]) ∧
    |(runBacktestCore parseMs e req strategy).finalBalance -
      ((runBacktestCore parseMs e req strategy).initialBalance +
       (runBacktestCore parseMs e req strategy).totalProfit)| ≤ 1/1000000 := by
  refine ⟨runBacktest_success _ _ _ _ _ hv hl, ?_⟩
  rw [core_finalBalance, core_initialBalance, core_totalProfit, foldl_add_eq]
  rw [sub_self, abs_zero]
  norm_num

theorem C5_witness :
    validRequest wReq = true ∧ wLookup wReq.strategyId = some wStrategy ∧
    |(runBacktestCore zeroParse zeroEntropy wReq wStrategy).finalBalance -
      ((runBacktestCore zeroParse zeroEntropy wReq wStrategy).initialBalance +
       (runBacktestCore zeroParse zeroEntropy wReq wStrategy).totalProfit)| ≤ 1/1000000 :=
  ⟨validRequest_wReq, rfl,
   (C5_finalBalance_eq_initial_plus_totalProfit wLookup zeroParse zeroEntropy wReq
      wStrategy validRequest_wReq rfl).2⟩

/-! ### C1 -/

/-- Entropy for the C1 counterexample: `winRate` draw `11/50` (so
`winRate = 45 + 25*11/50 = 50.5`), all other draws 0. -/
def cxEntropy1 : ℕ → ℚ := fun n => if n = 1 then 11/50 else 0

/-- C1 counterexample: a successful run (strategy found, request valid)
with `totalTrades = 20 > 0` whose stored `winRate` is the raw draw
`50.5`, while `winningTrades/totalTrades*100 = floor(10.1)/20*100 = 50`:
the claimed equality fails because the handler stores the drawn rate, not
the ratio recomputed from the floored `winningTrades`. -/
theorem C1_counterexample :
    runBacktest wLookup zeroParse cxEntropy1 wReq =
      (Except.ok (runBacktestCore zeroParse cxEntropy1 wReq wStrategy),
       [Effect.writeBarsFile, Effect.persistResult]) ∧
    0 < (runBacktestCore zeroParse cxEntropy1 wReq wStrategy).totalTrades ∧
    (runBacktestCore zeroParse cxEntropy1 wReq wStrategy).winRate ≠
      ((runBacktestCore zeroParse cxEntropy1 wReq wStrategy).winningTrades : ℚ) /
        ((runBacktestCore zeroParse cxEntropy1 wReq wStrategy).totalTrades : ℚ) * 100 := by
  have hT : (runBacktestCore zeroParse cxEntropy1 wReq wStrategy).totalTrades = 20 := by
    rw [core_totalTrades]
    norm_num [cxEntropy1]
  have hwr : (runBacktestCore zeroParse cxEntropy1 wReq wStrategy).winRate = 101/2 := by
    rw [core_winRate]
    norm_num [cxEntropy1]
  have hW : (runBacktestCore zeroParse cxEntropy1 wReq wStrategy).winningTrades = 10 := by
    rw [core_winningTrades, hwr, hT]
    have h10 : ⌊(101/2 : ℚ) / 100 * ((20 : ℕ) : ℚ)⌋ = 10 := by norm_num
    rw [h10]
    rfl
  refine ⟨runBacktest_success _ _ _ _ _ (by decide) rfl, by rw [hT]; norm_num, ?_⟩
  rw [hwr, hW, hT]
  norm_num

/-- C1 (amended): `totalTrades` is always positive (at least 20), and the
stored `winRate` is the raw uniform draw from `[45, 70)`, of which
`winningTrades = floor(winRate/100*totalTrades)`; hence
`winningTrades/totalTrades*100 ≤ winRate <
winningTrades/totalTrades*100 + 100/totalTrades`, with equality to the
ratio only when `winRate/100*totalTrades` is an integer. -/
theorem C1_winRate_vs_ratio (lookup : String → Option Strategy)
    (parseMs : String → Int) (e : ℕ → ℚ) (req : RunRequest) (strategy : Strategy)
    (he : UnitEntropy e) (hv : validRequest req = true)
    (hl : lookup req.strategyId = some strategy) :
    runBacktest lookup parseMs e req =
      (Except.ok (runBacktestCore parseMs e req strategy),
       [Effect.writeBarsFile, Effect.persistResult]) ∧
    0 < (runBacktestCore parseMs e req strategy).totalTrades ∧
    ((runBacktestCore parseMs e req strategy).winningTrades : ℚ) /
        ((runBacktestCore parseMs e req strategy).totalTrades : ℚ) * 100 ≤
      (runBacktestCore parseMs e req strategy).winRate ∧
    (runBacktestCore parseMs e req strategy).winRate <
      ((runBacktestCore parseMs e req strategy).winningTrades : ℚ) /
          ((runBacktestCore parseMs e req strategy).totalTrades : ℚ) * 100 +
        100 / ((runBacktestCore parseMs e req strategy).totalTrades : ℚ) := by
  refine ⟨runBacktest_success _ _ _ _ _ hv hl, ?_, ?_, ?_⟩
  · rw [core_totalTrades]
    omega
  all_goals {
    rw [core_winningTrades, core_winRate, core_totalTrades]
    obtain ⟨he1l, he1r⟩ := he 1
    set T : ℕ := (⌊e 0 * 50⌋).toNat + 20 with hTdef
    set wr : ℚ := 45 + e 1 * 25 with hwrdef
    have hwr0 : 0 ≤ wr := by rw [hwrdef]; linarith
    have hq : (0 : ℚ) < (T : ℚ) := by
      have : 20 ≤ T := by omega
      exact_mod_cast Nat.lt_of_lt_of_le (by norm_num) this
    have hx0 : 0 ≤ wr / 100 * (T : ℚ) := by positivity
    have hfl : (0 : ℤ) ≤ ⌊wr / 100 * (T : ℚ)⌋ := Int.floor_nonneg.mpr hx0
    have hcast : (((⌊wr / 100 * (T : ℚ)⌋).toNat : ℚ)) = ((⌊wr / 100 * (T : ℚ)⌋ : ℤ) : ℚ) := by
      exact_mod_cast congrArg (fun z : ℤ => (z : ℚ)) (Int.toNat_of_nonneg hfl)
    have h1 : ((⌊wr / 100 * (T : ℚ)⌋ : ℤ) : ℚ) ≤ wr / 100 * (T : ℚ) := Int.floor_le _
    have h2 : wr / 100 * (T : ℚ) < ((⌊wr / 100 * (T : ℚ)⌋ : ℤ) : ℚ) + 1 :=
      Int.lt_floor_add_one _
    rw [hcast]
    first
    | · rw [div_mul_eq_mul_div, div_le_iff₀ hq]
        nlinarith [h1]
    | · rw [div_mul_eq_mul_div, div_add_div_same, lt_div_iff₀ hq]
        nlinarith [h2]
  }

theorem C1_witness :
    UnitEntropy zeroEntropy ∧ validRequest wReq = true ∧
    wLookup wReq.strategyId = some wStrategy ∧
    0 < (runBacktestCore zeroParse zeroEntropy wReq wStrategy).totalTrades :=
  ⟨unitEntropy_zero, validRequest_wReq, rfl,
   (C1_winRate_vs_ratio wLookup zeroParse zeroEntropy wReq wStrategy unitEntropy_zero
      validRequest_wReq rfl).2.1⟩

/-! ### C8 -/

/-- A request that fails `runBacktestSchema` validation: empty
`strategyId` (the zod `min(1)` check rejects it). -/
def badReq : RunRequest := { wReq with strategyId := "" }

/-- C8 counterexample: `badReq.strategyId` is absent from the (empty)
store, yet the run fails with `ValidationError` (the 400 response), not
`StrategyNotFoundError`: schema validation runs before the strategy
lookup, so the claim's universal statement over all requests fails. -/
theorem C8_counterexample :
    noLookup badReq.strategyId = none ∧
    runBacktest noLookup zeroParse zeroEntropy badReq =
      (Except.error RunError.validationError, []) ∧
    RunError.validationError ≠ RunError.strategyNotFound := by
  refine ⟨rfl, ?_, by decide⟩
  exact runBacktest_invalid _ _ _ _ (by decide)

/-- C8 (amended): for every request that passes schema validation and
whose `strategyId` is absent from the store, the run fails with
`StrategyNotFoundError` (the 404 response) and the effect trace is empty:
no backtest result is persisted and no bar file is written. -/
theorem C8_absent_strategy_404_no_effects (lookup : String → Option Strategy)
    (parseMs : String → Int) (e : ℕ → ℚ) (req : RunRequest)
    (hv : validRequest req = true) (hl : lookup req.strategyId = none) :
    runBacktest lookup parseMs e req = (Except.error RunError.strategyNotFound, []) :=
  runBacktest_notFound lookup parseMs e req hv hl

theorem C8_witness :
    validRequest wReq = true ∧ noLookup wReq.strategyId = none ∧
    runBacktest noLookup zeroParse zeroEntropy wReq =
      (Except.error RunError.strategyNotFound, []) :=
  ⟨validRequest_wReq, rfl,
   C8_absent_strategy_404_no_effects noLookup zeroParse zeroEntropy wReq
     validRequest_wReq rfl⟩

/-! ### Shared lemmas on trade profits -/

theorem mkTrade_profit (e : ℕ → ℚ) (sym : String) (startMs : Int) (W i : ℕ) :
    (mkTrade e sym startMs W i).profit = tradeProfit e W i := rfl

theorem tradeProfit_win (e : ℕ → ℚ) (W i : ℕ) (he : UnitEntropy e) (h : i < W) :
    50 ≤ tradeProfit e W i ∧ tradeProfit e W i < 250 := by
  obtain ⟨h0, h1⟩ := he (2 + 5*i)
  unfold tradeProfit
  rw [if_pos h]
  constructor <;> nlinarith

theorem tradeProfit_loss (e : ℕ → ℚ) (W i : ℕ) (he : UnitEntropy e) (h : W ≤ i) :
    -180 < tradeProfit e W i ∧ tradeProfit e W i ≤ -30 := by
  obtain ⟨h0, h1⟩ := he (2 + 5*i)
  unfold tradeProfit
  rw [if_neg (not_lt.mpr h)]
  constructor <;> nlinarith

theorem tradeProfit_pos_iff (e : ℕ → ℚ) (W i : ℕ) (he : UnitEntropy e) :
    0 < tradeProfit e W i ↔ i < W := by
  constructor
  · intro hp
    by_contra hn
    have := (tradeProfit_loss e W i he (not_lt.mp hn)).2
    linarith
  · intro hw
    have := (tradeProfit_win e W i he hw).1
    linarith

theorem tradeProfit_neg_iff (e : ℕ → ℚ) (W i : ℕ) (he : UnitEntropy e) :
    tradeProfit e W i < 0 ↔ W ≤ i := by
  constructor
  · intro hp
    by_contra hn
    have := (tradeProfit_win e W i he (not_le.mp hn)).1
    linarith
  · intro hl2
    have := (tradeProfit_loss e W i he hl2).2
    linarith

theorem tradeProfit_ne_zero (e : ℕ → ℚ) (W i : ℕ) (he : UnitEntropy e) :
    tradeProfit e W i ≠ 0 := by
  by_cases h : i < W
  · have := (tradeProfit_win e W i he h).1
    intro hz
    rw [hz] at this
    norm_num at this
  · have := (tradeProfit_loss e W i he (not_lt.mp h)).2
    intro hz
    rw [hz] at this
    norm_num at this

/-! ### C7 -/

/-- C7 counterexample: under the all-zero entropy, `winningTrades = 9`
and trade 9 is a losing trade with profit exactly `-30` — the infimum of
the loss draw `-(Math.random()*150+30)` is attained, so the claimed loss
interval `[-180, -30)` is wrong: `-30` is possible and `-180` is not. -/
theorem C7_counterexample :
    runBacktest wLookup zeroParse zeroEntropy wReq =
      (Except.ok (runBacktestCore zeroParse zeroEntropy wReq wStrategy),
       [Effect.writeBarsFile, Effect.persistResult]) ∧
    (runBacktestCore zeroParse zeroEntropy wReq wStrategy).winningTrades ≤ 9 ∧
    ((runBacktestCore zeroParse zeroEntropy wReq wStrategy).trades[9]?.map
      (fun t => t.profit)) = some ((-30 : ℚ)) ∧
    ¬ ((-30 : ℚ) < -30) := by
  have hT : (runBacktestCore zeroParse zeroEntropy wReq wStrategy).totalTrades = 20 := by
    rw [core_totalTrades]
    norm_num [zeroEntropy]
  have hW : (runBacktestCore zeroParse zeroEntropy wReq wStrategy).winningTrades = 9 := by
    rw [core_winningTrades, core_winRate, core_totalTrades]
    norm_num [zeroEntropy]
    decide
  refine ⟨runBacktest_success _ _ _ _ _ validRequest_wReq rfl, le_of_eq hW, ?_, by norm_num⟩
  rw [core_trades, hT, hW]
  have h920 : (9 : ℕ) < 20 := by norm_num
  simp only [List.getElem?_map, List.getElem?_range, h920, if_pos, Option.map_some',
    mkTrade_profit]
  unfold tradeProfit
  rw [if_neg (by norm_num)]
  norm_num [zeroEntropy]

/-- C7 (amended): for every successful run with entropy in `[0, 1)` and
every trade index `i`, trade `i` is a win (positive profit) exactly when
`i < winningTrades`; winning profits lie in `[50, 250)` and losing
profits lie in `(-180, -30]` (not `[-180, -30)` as claimed: the loss draw
is `-(Math.random()*150+30)` with `Math.random() ∈ [0,1)`, so `-30` is
attained and `-180` is not). -/
theorem C7_trade_win_loss (lookup : String → Option Strategy)
    (parseMs : String → Int) (e : ℕ → ℚ) (req : RunRequest) (strategy : Strategy)
    (he : UnitEntropy e) (hv : validRequest req = true)
    (hl : lookup req.strategyId = some strategy) :
    runBacktest lookup parseMs e req =
      (Except.ok (runBacktestCore parseMs e req strategy),
       [Effect.writeBarsFile, Effect.persistResult]) ∧
    ∀ i (h : i < (runBacktestCore parseMs e req strategy).trades.length),
      (0 < ((runBacktestCore parseMs e req strategy).trades[i]).profit ↔
        i < (runBacktestCore parseMs e req strategy).winningTrades) ∧
      (i < (runBacktestCore parseMs e req strategy).winningTrades →
        50 ≤ ((runBacktestCore parseMs e req strategy).trades[i]).profit ∧
        ((runBacktestCore parseMs e req strategy).trades[i]).profit < 250) ∧
      ((runBacktestCore parseMs e req strategy).winningTrades ≤ i →
        -180 < ((runBacktestCore parseMs e req strategy).trades[i]).profit ∧
        ((runBacktestCore parseMs e req strategy).trades[i]).profit ≤ -30) := by
  refine ⟨runBacktest_success _ _ _ _ _ hv hl, ?_⟩
  intro i h
  have hget : ((runBacktestCore parseMs e req strategy).trades[i]).profit =
      tradeProfit e (runBacktestCore parseMs e req strategy).winningTrades i := by
    simp only [core_trades, List.getElem_map, List.getElem_range, mkTrade_profit]
  rw [hget]
  exact ⟨tradeProfit_pos_iff e _ i he,
    fun hw => tradeProfit_win e _ i he hw,
    fun hl2 => tradeProfit_loss e _ i he hl2⟩

theorem C7_witness :
    UnitEntropy zeroEntropy ∧ validRequest wReq = true ∧
    wLookup wReq.strategyId = some wStrategy ∧
    runBacktest wLookup zeroParse zeroEntropy wReq =
      (Except.ok (runBacktestCore zeroParse zeroEntropy wReq wStrategy),
       [Effect.writeBarsFile, Effect.persistResult]) :=
  ⟨unitEntropy_zero, validRequest_wReq, rfl,
   (C7_trade_win_loss wLookup zeroParse zeroEntropy wReq wStrategy unitEntropy_zero
      validRequest_wReq rfl).1⟩

/-! ### C4 -/

/-- Entropy for the C4 counterexample: trade 0 draws type `BUY`
(draw 3 = 3/4 > 1/2) and `openPrice = 1.05` (draw 4 = 1/2) while
`closePrice = 1.0` (draw 5 = 0); all other draws 0, so trade 0 is a win
with profit 50. -/
def cxEntropy4 : ℕ → ℚ := fun n => if n = 3 then 3/4 else if n = 4 then 1/2 else 0

/-- C4 counterexample: a successful run whose trade 0 is a BUY with
positive profit 50 but `closePrice − openPrice = 1 − 1.05 < 0`: the
profit sign does not match the side-adjusted price direction, because
`type`, `openPrice` and `closePrice` are drawn independently of the
profit (routes.ts lines 176-178). -/
theorem C4_counterexample :
    runBacktest wLookup zeroParse cxEntropy4 wReq =
      (Except.ok (runBacktestCore zeroParse cxEntropy4 wReq wStrategy),
       [Effect.writeBarsFile, Effect.persistResult]) ∧
    ((runBacktestCore zeroParse cxEntropy4 wReq wStrategy).trades[0]?.map
      (fun t => (t.profit, t.type, t.openPrice, t.closePrice))) =
      some ((50 : ℚ), "BUY", (21/20 : ℚ), (1 : ℚ)) ∧
    (0 : ℚ) < 50 ∧ (1 : ℚ) - 21/20 < 0 := by
  have hT : (runBacktestCore zeroParse cxEntropy4 wReq wStrategy).totalTrades = 20 := by
    rw [core_totalTrades]
    norm_num [cxEntropy4]
  have hW : (runBacktestCore zeroParse cxEntropy4 wReq wStrategy).winningTrades = 9 := by
    rw [core_winningTrades, core_winRate, core_totalTrades]
    norm_num [cxEntropy4]
    decide
  refine ⟨runBacktest_success _ _ _ _ _ validRequest_wReq rfl, ?_, by norm_num, by norm_num⟩
  rw [core_trades, hT, hW]
  have h020 : (0 : ℕ) < 20 := by norm_num
  simp only [List.getElem?_map, List.getElem?_range, h020, if_pos, Option.map_some']
  unfold mkTrade tradeProfit
  norm_num [cxEntropy4]

/-- C4 (amended): the sign of a trade's `profit` is not tied to the
side-adjusted price direction (see the counterexample); it is determined
solely by the trade's index: positive exactly when `i < winningTrades`
and negative otherwise, with `type`, `openPrice` and `closePrice` drawn
independently. -/
theorem C4_profit_sign_index_only (lookup : String → Option Strategy)
    (parseMs : String → Int) (e : ℕ → ℚ) (req : RunRequest) (strategy : Strategy)
    (he : UnitEntropy e) (hv : validRequest req = true)
    (hl : lookup req.strategyId = some strategy) :
    runBacktest lookup parseMs e req =
      (Except.ok (runBacktestCore parseMs e req strategy),
       [Effect.writeBarsFile, Effect.persistResult]) ∧
    ∀ i (h : i < (runBacktestCore parseMs e req strategy).trades.length),
      (0 < ((runBacktestCore parseMs e req strategy).trades[i]).profit ↔
        i < (runBacktestCore parseMs e req strategy).winningTrades) ∧
      (((runBacktestCore parseMs e req strategy).trades[i]).profit < 0 ↔
        (runBacktestCore parseMs e req strategy).winningTrades ≤ i) := by
  refine ⟨runBacktest_success _ _ _ _ _ hv hl, ?_⟩
  intro i h
  have hget : ((runBacktestCore parseMs e req strategy).trades[i]).profit =
      tradeProfit e (runBacktestCore parseMs e req strategy).winningTrades i := by
    simp only [core_trades, List.getElem_map, List.getElem_range, mkTrade_profit]
  rw [hget]
  exact ⟨tradeProfit_pos_iff e _ i he, tradeProfit_neg_iff e _ i he⟩

theorem C4_witness :
    UnitEntropy zeroEntropy ∧ validRequest wReq = true ∧
    wLookup wReq.strategyId = some wStrategy ∧
    runBacktest wLookup zeroParse zeroEntropy wReq =
      (Except.ok (runBacktestCore zeroParse zeroEntropy wReq wStrategy),
       [Effect.writeBarsFile, Effect.persistResult]) :=
  ⟨unitEntropy_zero, validRequest_wReq, rfl,
   (C4_profit_sign_index_only wLookup zeroParse zeroEntropy wReq wStrategy
      unitEntropy_zero validRequest_wReq rfl).1⟩

/-! ### C10 -/

/-- Under unit entropy the floored win count never exceeds the trade
count: `winRate < 70 < 100`, so `winRate/100 * totalTrades < totalTrades`. -/
theorem winning_le_total (parseMs : String → Int) (e : ℕ → ℚ)
    (req : RunRequest) (strategy : Strategy) (he : UnitEntropy e) :
    (runBacktestCore parseMs e req strategy).winningTrades ≤
      (runBacktestCore parseMs e req strategy).totalTrades := by
  rw [core_winningTrades, core_winRate, core_totalTrades]
  obtain ⟨h0, h1⟩ := he 1
  set T : ℕ := (⌊e 0 * 50⌋).toNat + 20 with hT
  have hq : (0 : ℚ) < (T : ℚ) := by
    have h20 : (0 : ℕ) < T := by omega
    exact_mod_cast h20
  have hr : (45 + e 1 * 25) / 100 < 1 := by
    rw [div_lt_one (by norm_num : (0:ℚ) < 100)]
    linarith
  have hx : (45 + e 1 * 25) / 100 * (T : ℚ) < (T : ℚ) := by
    calc (45 + e 1 * 25) / 100 * (T : ℚ) < 1 * (T : ℚ) :=
          mul_lt_mul_of_pos_right hr hq
      _ = (T : ℚ) := one_mul _
  have hfl : ⌊(45 + e 1 * 25) / 100 * (T : ℚ)⌋ < (T : ℤ) := by
    rw [Int.floor_lt]
    exact_mod_cast hx
  omega

theorem length_filter_range_lt (T W : ℕ) :
    ((List.range T).filter (fun i => decide (i < W))).length = min W T := by
  induction T with
  | zero => simp
  | succ n ih =>
    rw [List.range_succ, List.filter_append, List.length_append, ih]
    by_cases h : n < W
    · simp [h]
      omega
    · simp [h]
      omega

theorem length_filter_range_ge (T W : ℕ) :
    ((List.range T).filter (fun i => decide (W ≤ i))).length = T - min W T := by
  induction T with
  | zero => simp
  | succ n ih =>
    rw [List.range_succ, List.filter_append, List.length_append, ih]
    by_cases h : W ≤ n
    · simp [h]
      omega
    · simp [h]
      omega

/-- C10 (confirmed): no trade's profit is exactly 0, the trades with
positive profit are exactly the `winningTrades` many, and those with
negative profit exactly the `losingTrades` many — so the profit-factor
numerator and denominator (routes.ts lines 192-195, which filter on
`profit > 0` and `profit < 0`) sum over exactly the winning and the
losing trades respectively. -/
theorem C10_no_zero_profit_and_counts (lookup : String → Option Strategy)
    (parseMs : String → Int) (e : ℕ → ℚ) (req : RunRequest) (strategy : Strategy)
    (he : UnitEntropy e) (hv : validRequest req = true)
    (hl : lookup req.strategyId = some strategy) :
    runBacktest lookup parseMs e req =
      (Except.ok (runBacktestCore parseMs e req strategy),
       [Effect.writeBarsFile, Effect.persistResult]) ∧
    (∀ t ∈ (runBacktestCore parseMs e req strategy).trades, t.profit ≠ 0) ∧
    ((runBacktestCore parseMs e req strategy).trades.filter
        (fun t => decide (0 < t.profit))).length =
      (runBacktestCore parseMs e req strategy).winningTrades ∧
    ((runBacktestCore parseMs e req strategy).trades.filter
        (fun t => decide (t.profit < 0))).length =
      (runBacktestCore parseMs e req strategy).losingTrades := by
  have hWT := winning_le_total parseMs e req strategy he
  refine ⟨runBacktest_success _ _ _ _ _ hv hl, ?_, ?_, ?_⟩
  · intro t ht
    rw [core_trades] at ht
    obtain ⟨i, hi, rfl⟩ := List.mem_map.mp ht
    rw [mkTrade_profit]
    exact tradeProfit_ne_zero e _ i he
  · rw [core_trades, List.filter_map, List.length_map]
    have hcong : (List.range (runBacktestCore parseMs e req strategy).totalTrades).filter
        ((fun t => decide (0 < t.profit)) ∘
          mkTrade e req.symbol (parseMs req.startDate)
            (runBacktestCore parseMs e req strategy).winningTrades) =
        (List.range (runBacktestCore parseMs e req strategy).totalTrades).filter
          (fun i => decide (i < (runBacktestCore parseMs e req strategy).winningTrades)) := by
      apply List.filter_congr
      intro i hi
      show decide (0 < (mkTrade e req.symbol (parseMs req.startDate)
        (runBacktestCore parseMs e req strategy).winningTrades i).profit) = _
      rw [mkTrade_profit]
      exact decide_eq_decide.mpr (tradeProfit_pos_iff e _ i he)
    rw [hcong, length_filter_range_lt]
    exact min_eq_left hWT
  · rw [core_trades, List.filter_map, List.length_map]
    have hcong : (List.range (runBacktestCore parseMs e req strategy).totalTrades).filter
        ((fun t => decide (t.profit < 0)) ∘
          mkTrade e req.symbol (parseMs req.startDate)
            (runBacktestCore parseMs e req strategy).winningTrades) =
        (List.range (runBacktestCore parseMs e req strategy).totalTrades).filter
          (fun i => decide ((runBacktestCore parseMs e req strategy).winningTrades ≤ i)) := by
      apply List.filter_congr
      intro i hi
      show decide ((mkTrade e req.symbol (parseMs req.startDate)
        (runBacktestCore parseMs e req strategy).winningTrades i).profit < 0) = _
      rw [mkTrade_profit]
      exact decide_eq_decide.mpr (tradeProfit_neg_iff e _ i he)
    rw [hcong, length_filter_range_ge, min_eq_left hWT, core_losingTrades]

theorem C10_witness :
    UnitEntropy zeroEntropy ∧ validRequest wReq = true ∧
    wLookup wReq.strategyId = some wStrategy ∧
    runBacktest wLookup zeroParse zeroEntropy wReq =
      (Except.ok (runBacktestCore zeroParse zeroEntropy wReq wStrategy),
       [Effect.writeBarsFile, Effect.persistResult]) :=
  ⟨unitEntropy_zero, validRequest_wReq, rfl,
   (C10_no_zero_profit_and_counts wLookup zeroParse zeroEntropy wReq wStrategy
      unitEntropy_zero validRequest_wReq rfl).1⟩

/-! ### C9 -/

theorem equitySamples_append (l1 l2 : List ℚ) :
    ∀ (b : ℚ) (i : ℕ),
      equitySamples (l1 ++ l2) b i =
        equitySamples l1 b i ++ equitySamples l2 (b + l1.sum) (i + l1.length) := by
  induction l1 with
  | nil =>
    intro b i
    simp [equitySamples]
  | cons p ps ih =>
    intro b i
    simp only [List.cons_append, equitySamples, List.append_eq]
    have hb : b + p + ps.sum = b + (p :: ps).sum := by
      rw [List.sum_cons]
      ring
    have hi : i + 1 + ps.length = i + (p :: ps).length := by
      rw [List.length_cons]
      omega
    by_cases h : i % 3 = 0
    · simp only [if_pos h]
      rw [ih (b + p) (i + 1), hb, hi, List.cons_append]
    · simp only [if_neg h]
      rw [ih (b + p) (i + 1), hb, hi]

theorem equitySamples_range_map (f : ℕ → ℚ) (b : ℚ) (n : ℕ) :
    equitySamples ((List.range n).map f) b 0 =
      ((List.range n).filter (fun i => decide (i % 3 = 0))).map
        (fun i => b + ((List.range (i+1)).map f).sum) := by
  induction n with
  | zero => simp [equitySamples]
  | succ n ih =>
    rw [List.range_succ, List.map_append, equitySamples_append, ih,
      List.filter_append, List.map_append]
    congr 1
    simp only [List.map_cons, List.map_nil, List.length_map, List.length_range, zero_add]
    by_cases h : n % 3 = 0
    · simp only [List.filter_cons, List.filter_nil, h, decide_True, if_true, equitySamples,
        List.map_cons, List.map_nil]
      congr 1
      rw [List.range_succ, List.map_append, List.sum_append]
      simp only [List.map_cons, List.map_nil, List.sum_cons, List.sum_nil]
      ring
    · simp only [List.filter_cons, List.filter_nil, h, decide_False, if_false, equitySamples,
        List.map_nil]
      simp

theorem length_filter_mod3 (n : ℕ) :
    ((List.range n).filter (fun i => decide (i % 3 = 0))).length = (n + 2) / 3 := by
  induction n with
  | zero => rfl
  | succ n ih =>
    rw [List.range_succ, List.filter_append, List.length_append, ih]
    by_cases h : n % 3 = 0
    · simp [h]
      omega
    · simp [h]
      omega

/-- C9 (confirmed): the equity curve of a successful run is the initial
balance followed by the running balance after each trade whose 0-based
index `i` satisfies `i % 3 == 0` (trades 1, 4, 7, … in 1-based counting),
hence has exactly `1 + ceil(totalTrades/3)` entries (`(totalTrades+2)/3`
is the ceiling in natural division). -/
theorem C9_equity_curve_shape (lookup : String → Option Strategy)
    (parseMs : String → Int) (e : ℕ → ℚ) (req : RunRequest) (strategy : Strategy)
    (hv : validRequest req = true) (hl : lookup req.strategyId = some strategy) :
    runBacktest lookup parseMs e req =
      (Except.ok (runBacktestCore parseMs e req strategy),
       [Effect.writeBarsFile, Effect.persistResult]) ∧
    (runBacktestCore parseMs e req strategy).equityCurve.length =
      1 + ((runBacktestCore parseMs e req strategy).totalTrades + 2) / 3 ∧
    (runBacktestCore parseMs e req strategy).equityCurve =
      (runBacktestCore parseMs e req strategy).initialBalance ::
        (((List.range (runBacktestCore parseMs e req strategy).totalTrades).filter
            (fun i => decide (i % 3 = 0))).map
          (fun i => (runBacktestCore parseMs e req strategy).initialBalance +
            ((List.range (i+1)).map
              (tradeProfit e (runBacktestCore parseMs e req strategy).winningTrades)).sum)) := by
  have hp : (runBacktestCore parseMs e req strategy).trades.map (fun t => t.profit) =
      (List.range (runBacktestCore parseMs e req strategy).totalTrades).map
        (tradeProfit e (runBacktestCore parseMs e req strategy).winningTrades) := by
    rw [core_trades, List.map_map]
    rfl
  have hcurve := core_equityCurve parseMs e req strategy
  rw [hp, equitySamples_range_map] at hcurve
  refine ⟨runBacktest_success _ _ _ _ _ hv hl, ?_, ?_⟩
  · rw [hcurve, List.length_cons, List.length_map, length_filter_mod3]
    omega
  · rw [hcurve, core_initialBalance]

theorem C9_witness :
    validRequest wReq = true ∧ wLookup wReq.strategyId = some wStrategy ∧
    runBacktest wLookup zeroParse zeroEntropy wReq =
      (Except.ok (runBacktestCore zeroParse zeroEntropy wReq wStrategy),
       [Effect.writeBarsFile, Effect.persistResult]) :=
  ⟨validRequest_wReq, rfl,
   (C9_equity_curve_shape wLookup zeroParse zeroEntropy wReq wStrategy
      validRequest_wReq rfl).1⟩

/-! ### C6 -/

/-- Rounding to 5 decimal places is monotone, so it preserves the
ordering `low ≤ open, close ≤ high` of the raw values. -/
theorem fix5_mono : Monotone fix5 := by
  intro a b h
  unfold fix5
  have hle : round (a * 100000) ≤ round (b * 100000) := by
    rw [round_eq, round_eq]
    exact Int.floor_mono (by linarith)
  have h2 : ((round (a * 100000) : ℤ) : ℚ) ≤ ((round (b * 100000) : ℤ) : ℚ) := by
    exact_mod_cast hle
  gcongr

/-- Every bar produced by the synthesizer loop satisfies the OHLC
invariant: the raw `low` is `min(open, close)` minus a nonnegative jitter
and the raw `high` is `max(open, close)` plus one, and `toFixed(5)`
rounding is monotone. -/
theorem generateBarsLoop_ohlc (e : ℕ → ℚ) (he : UnitEntropy e) (endMs : Int)
    (vol : ℚ) (hv : 0 ≤ vol) :
    ∀ (m : ℕ) (time : Int) (price : ℚ) (k : ℕ), (endMs - time).toNat = m →
      ∀ bar ∈ generateBarsLoop e endMs vol time price k,
        bar.low ≤ min bar.open_ bar.close ∧ max bar.open_ bar.close ≤ bar.high := by
  intro m
  induction m using Nat.strong_induction_on with
  | _ m ih =>
    intro time price k hm bar hbar
    by_cases hc : time < endMs
    · unfold generateBarsLoop at hbar
      rw [if_pos hc] at hbar
      simp only [List.mem_cons] at hbar
      rcases hbar with rfl | hbar
      · dsimp only
        constructor
        · rw [← Monotone.map_min fix5_mono]
          apply fix5_mono
          have hj : 0 ≤ e (k+2) * vol := mul_nonneg (he (k+2)).1 hv
          linarith
        · rw [← Monotone.map_max fix5_mono]
          apply fix5_mono
          have hj : 0 ≤ e (k+1) * vol := mul_nonneg (he (k+1)).1 hv
          linarith
      · have hlt : (endMs - (time + barIntervalMs)).toNat < m := by
          simp only [barIntervalMs] at hm ⊢
          omega
        exact ih _ hlt (time + barIntervalMs) _ (k+5) rfl bar hbar
    · unfold generateBarsLoop at hbar
      rw [if_neg hc] at hbar
      simp at hbar

/-- C6 (confirmed): every bar of the synthesized sequence, with its price
fields formatted to 5 decimal places, satisfies
`low ≤ min(open, close)` and `high ≥ max(open, close)`. -/
theorem C6_bar_ohlc_invariant (e : ℕ → ℚ) (he : UnitEntropy e) (s t : Int)
    (sym : String) (bar : Bar) (hbar : bar ∈ generateSimulatedBars e s t sym) :
    bar.low ≤ min bar.open_ bar.close ∧ max bar.open_ bar.close ≤ bar.high := by
  unfold generateSimulatedBars at hbar
  exact generateBarsLoop_ohlc e he t
    (if containsJPY sym then (1:ℚ)/2 else 5/10000)
    (by split <;> norm_num)
    ((t - s).toNat) s (if containsJPY sym then (150:ℚ) else 11/10) 0 rfl bar hbar

/-- The single bar produced by zero entropy over `[0, 1)` ms for
`"EURUSD"`: open 1.1, close 1.0995, high 1.1, low 1.0995. -/
def wBar : Bar :=
  { time := 0, open_ := 11/10, high := 11/10, low := 2199/2000, close := 2199/2000,
    tick_volume := 100, spread := 5, real_volume := 0 }

theorem wBars_eq : generateSimulatedBars zeroEntropy 0 1 wSymbol = [wBar] := by
  unfold generateSimulatedBars generateBarsLoop
  rw [if_pos (by decide : (0:Int) < 1)]
  unfold generateBarsLoop
  have hc : ¬ ((0:Int) + barIntervalMs < 1) := by decide
  have hjpy : containsJPY wSymbol = false := by decide
  simp only [if_neg hc, hjpy, Bool.false_eq_true, if_false]
  norm_num [zeroEntropy, fix5, round_eq, max_def, min_def, wBar]

theorem C6_witness :
    wBar.low ≤ min wBar.open_ wBar.close ∧ max wBar.open_ wBar.close ≤ wBar.high :=
  C6_bar_ohlc_invariant zeroEntropy unitEntropy_zero 0 1 wSymbol wBar
    (by rw [wBars_eq]; exact List.mem_singleton.mpr rfl)

end StarTrader
